import Mathlib

/-!
# KaesyrLabs: allocation discovery and credential disclosure

A shallow embedding of `src/ptero.js` (`Ptero.findFreeAllocation`, its inner
`scanNode`, and `Ptero.extractIpPortFromServer`) and of the button branch of the
`InteractionCreate` handler in `src/index.js`.

JavaScript values are embedded as the datatype `JVal`.  The operators the source
uses on them (`a.k`, `a?.k`, `a || b`, `!a`, `typeof a !== 'undefined'`,
`String(a)`, template literals, `for … of`, `Array.prototype.find`) are embedded
as functions on `JVal`; evaluation that can throw returns `Except JsError`.

Modelling conventions:
* numbers are integers (`0` is the only falsy number, `String(n)` is the decimal
  numeral); fractional numbers, `NaN` and numerals past `2^53` are outside the model;
* an object is its list of properties, the first binding of a key being the one that
  is read; the only property names the source reads (`attributes`, `id`, `data`,
  `ip`, …) are not defined on the prototypes of strings, numbers, booleans or
  arrays, so reading them from such a value gives `undefined`;
* the panel is a function from request path to response body or thrown error, and
  every run records the list of paths it requested.
-/

namespace KaesyrLabs

/-! ## JavaScript values -/

/-- A JavaScript value as produced by `JSON.parse`, plus `undefined`. -/
inductive JVal where
  | undefined
  | null
  | bool (b : Bool)
  | num (n : Int)
  | str (s : String)
  | arr (xs : List JVal)
  | obj (fields : List (String × JVal))

/-- A thrown JavaScript exception. -/
inductive JsError where
  /-- A `TypeError` raised by the runtime (property read on `null`/`undefined`,
  iteration of a non-iterable, call of a non-function, failed `ToPrimitive`). -/
  | typeError
  /-- A rejection of `this.client.get` (network failure, 4xx/5xx, timeout). -/
  | transport (detail : String)
  /-- An `Error` object created by `new Error(message)`. -/
  | error (message : String)
  deriving DecidableEq

namespace JVal

/-- JavaScript `ToBoolean`. -/
def truthy : JVal → Bool
  | .undefined => false
  | .null => false
  | .bool b => b
  | .num n => n != 0
  | .str s => s != ""
  | .arr _ => true
  | .obj _ => true

/-- The test `v === undefined` (equivalently `typeof v === 'undefined'`). -/
def isUndefined : JVal → Bool
  | .undefined => true
  | _ => false

/-- The test `v == null`: the value is `null` or `undefined`. -/
def isNullish : JVal → Bool
  | .undefined => true
  | .null => true
  | _ => false

/-- Own-property lookup in a property list; an absent key reads as `undefined`. -/
def lookup (k : String) : List (String × JVal) → JVal
  | [] => .undefined
  | (k', v) :: rest => if k' = k then v else lookup k rest

/-- Optional member access `v?.k`: `undefined` on `null`/`undefined`, the property
otherwise (which is `undefined` on primitives and arrays for the names used here). -/
def field (k : String) : JVal → JVal
  | .obj fs => lookup k fs
  | _ => .undefined

/-- Member access `v.k`: throws a `TypeError` on `null`/`undefined`. -/
def dot (v : JVal) (k : String) : Except JsError JVal :=
  if v.isNullish then .error .typeError else .ok (field k v)

/-- The operator `a || b` when neither operand can throw. -/
def or (a b : JVal) : JVal :=
  if a.truthy then a else b

/-- The operator `a || b` when evaluating an operand may throw: `b` is evaluated
only if `a` evaluated to a falsy value. -/
def orElse (a b : Except JsError JVal) : Except JsError JVal :=
  match a with
  | .error e => .error e
  | .ok v => if v.truthy then .ok v else b

mutual
/-- JavaScript `ToString` (`String(v)` and template-literal interpolation).  A number
prints as its decimal numeral, which is what JavaScript prints below `1e21`.  A plain
object prints as `[object Object]` unless it has an own property named `toString`,
which shadows `Object.prototype.toString` with a non-callable value and makes the
conversion throw. -/
def toStr : JVal → Except JsError String
  | .undefined => .ok "undefined"
  | .null => .ok "null"
  | .bool b => .ok (if b then "true" else "false")
  | .num n => .ok (toString n)
  | .str s => .ok s
  | .arr xs =>
    match elemStrs xs with
    | .ok parts => .ok (String.intercalate "," parts)
    | .error e => .error e
  | .obj fs =>
    if fs.any (fun p => p.1 = "toString") then .error .typeError
    else .ok "[object Object]"
termination_by structural v => v
/-- The element strings of `Array.prototype.join`: `null` and `undefined` elements
print as the empty string. -/
def elemStrs : List JVal → Except JsError (List String)
  | [] => .ok []
  | x :: rest =>
    match (match x with
      | .undefined => Except.ok ""
      | .null => Except.ok ""
      | v => toStr v), elemStrs rest with
    | .ok s, .ok ss => .ok (s :: ss)
    | .error e, _ => .error e
    | .ok _, .error e => .error e
termination_by structural xs => xs
end

/-- The values a `for (const x of v)` loop visits: the elements of an array, the
code points of a string; any other value is not iterable. -/
def iterate : JVal → Except JsError (List JVal)
  | .arr xs => .ok xs
  | .str s => .ok (s.data.map fun c => JVal.str (String.singleton c))
  | _ => .error .typeError

end JVal

open JVal

/-! ## `src/ptero.js` -/

/-- The panel behind `this.client.get(path)`: the parsed response body
(`response.data`), or the error the request rejects with. -/
abbrev Panel := String → Except JsError JVal

/-- The object literal `{ allocationId, ip, port, nodeId }` returned by `scanNode`. -/
structure Candidate where
  allocationId : JVal
  ip : JVal
  port : JVal
  nodeId : JVal

/-- The outcome of an `async` function together with the panel paths it requested,
in request order. -/
structure Run (α : Type) where
  result : Except JsError α
  reads : List String

/-- Default parameter `p = null`: the default applies when the argument is
`undefined` (absent). -/
def defaultNull : JVal → JVal
  | .undefined => .null
  | v => v

/-- The path of the template literal in `client.get` for the nodes of a location
(first statement of `findFreeAllocation`). -/
def nodesPath (locationId : JVal) : Except JsError String :=
  match toStr locationId with
  | .ok s => .ok ("/locations/" ++ s ++ "/nodes")
  | .error e => .error e

/-- The path of the template literal in `client.get` for the allocations of a node
(inside `scanNode`). -/
def allocationsPath (nodeId : JVal) : Except JsError String :=
  match toStr nodeId with
  | .ok s => .ok ("/nodes/" ++ s ++ "/allocations")
  | .error e => .error e

/-- `scanNode`, first line: `node.attributes?.id || node.id ||
node.attributes?.identifier || node.attributes?.node_id || node.attributes?.uuid`. -/
def resolveNodeId (node : JVal) : Except JsError JVal :=
  orElse ((dot node "attributes").map (field "id"))
    (orElse (dot node "id")
      (orElse ((dot node "attributes").map (field "identifier"))
        (orElse ((dot node "attributes").map (field "node_id"))
          ((dot node "attributes").map (field "uuid")))))

/-- `scanNode`, loop body: `const attr = a.attributes || a`. -/
def allocAttr (a : JVal) : Except JsError JVal :=
  orElse (dot a "attributes") (.ok a)

/-- `scanNode`, loop body: `typeof attr.assigned !== 'undefined' ? attr.assigned :
!!attr.server_id`. -/
def assignedOf (attr : JVal) : Except JsError JVal :=
  match dot attr "assigned" with
  | .error e => .error e
  | .ok v =>
    if !v.isUndefined then .ok v
    else (dot attr "server_id").map fun s => JVal.bool s.truthy

/-- `scanNode`, loop body: `attr.id || attr.attributes?.id ||
attr.attributes?.allocation || attr.attributes?.allocation_id`. -/
def allocIdOf (attr : JVal) : Except JsError JVal :=
  orElse (dot attr "id")
    (orElse ((dot attr "attributes").map (field "id"))
      (orElse ((dot attr "attributes").map (field "allocation"))
        ((dot attr "attributes").map (field "allocation_id"))))

/-- The expression `x.k || x.attributes?.k`, used for `ip` and `port`. -/
def ownOrNested (x : JVal) (k : String) : Except JsError JVal :=
  orElse (dot x k) ((dot x "attributes").map (field k))

/-- `scanNode`, the `for (const a of allocs)` loop: the first entry for which
`!assigned` holds is returned as a candidate; `null` (here `none`) if the loop
finishes. -/
def scanAllocs (nodeId : JVal) : List JVal → Except JsError (Option Candidate)
  | [] => .ok none
  | a :: rest =>
    match allocAttr a with
    | .error e => .error e
    | .ok attr =>
      match assignedOf attr with
      | .error e => .error e
      | .ok assigned =>
        match allocIdOf attr with
        | .error e => .error e
        | .ok allocId =>
          if !assigned.truthy then
            match ownOrNested attr "ip" with
            | .error e => .error e
            | .ok ip =>
              match ownOrNested attr "port" with
              | .error e => .error e
              | .ok port => .ok (some ⟨allocId, ip, port, nodeId⟩)
          else scanAllocs nodeId rest

/-- `scanNode`: `allocResp.data?.data || allocResp.data || []`. -/
def allocsOfBody (body : JVal) : JVal :=
  JVal.or (field "data" body) (JVal.or body (.arr []))

/-- The helper `scanNode` of `findFreeAllocation`. -/
def scanNode (panel : Panel) (node : JVal) : Run (Option Candidate) :=
  match resolveNodeId node with
  | .error e => ⟨.error e, []⟩
  | .ok nodeId =>
    if !nodeId.truthy then ⟨.ok none, []⟩
    else
      match allocationsPath nodeId with
      | .error e => ⟨.error e, []⟩
      | .ok path =>
        match panel path with
        | .error e => ⟨.error e, [path]⟩
        | .ok body =>
          match iterate (allocsOfBody body) with
          | .error e => ⟨.error e, [path]⟩
          | .ok allocs => ⟨scanAllocs nodeId allocs, [path]⟩

/-- The callback of `nodes.find`: `String(n.attributes?.id || n.id) ===
String(preferNodeId)`. -/
def isPreferred (preferNodeId n : JVal) : Except JsError Bool :=
  match orElse ((dot n "attributes").map (field "id")) (dot n "id") with
  | .error e => .error e
  | .ok nid =>
    match toStr nid with
    | .error e => .error e
    | .ok s =>
      match toStr preferNodeId with
      | .error e => .error e
      | .ok t => .ok (s == t)

/-- `Array.prototype.find` with the callback `isPreferred`: the first element the
callback accepts, `undefined` if there is none. -/
def findPreferred (preferNodeId : JVal) : List JVal → Except JsError JVal
  | [] => .ok .undefined
  | n :: rest =>
    match isPreferred preferNodeId n with
    | .error e => .error e
    | .ok true => .ok n
    | .ok false => findPreferred preferNodeId rest

/-- `nodes.find(…)`: only an array has a callable `find`. -/
def nodesFind (preferNodeId nodes : JVal) : Except JsError JVal :=
  match nodes with
  | .arr ns => findPreferred preferNodeId ns
  | _ => .error .typeError

/-- Step 3 of `findFreeAllocation`, the loop `for (const node of nodes)` followed
by `throw new Error('No free allocations found')`; `before` holds the paths
requested so far. -/
def scanAll (panel : Panel) (before : List String) : List JVal → Run Candidate
  | [] => ⟨.error (.error "No free allocations found"), before⟩
  | node :: rest =>
    match scanNode panel node with
    | ⟨.error e, rs⟩ => ⟨.error e, before ++ rs⟩
    | ⟨.ok (some r), rs⟩ => ⟨.ok r, before ++ rs⟩
    | ⟨.ok none, rs⟩ => scanAll panel (before ++ rs) rest

/-- Step 3 of `findFreeAllocation` on the value `nodes`. -/
def scanNodes (panel : Panel) (before : List String) (nodes : JVal) : Run Candidate :=
  match iterate nodes with
  | .error e => ⟨.error e, before⟩
  | .ok ns => scanAll panel before ns

/-- `Ptero.findFreeAllocation(locationId, preferNodeId = null, preferAllocationId = null)`. -/
def findFreeAllocation (panel : Panel) (locationId preferNodeId preferAllocationId : JVal) :
    Run Candidate :=
  let preferNodeId := defaultNull preferNodeId
  let preferAllocationId := defaultNull preferAllocationId
  -- 1) `if (preferAllocationId) { }`: the block holds only comments
  let _ := if preferAllocationId.truthy then () else ()
  match nodesPath locationId with
  | .error e => ⟨.error e, []⟩
  | .ok path =>
    match panel path with
    | .error e => ⟨.error e, [path]⟩
    | .ok body =>
      let nodes := JVal.or (field "data" body) (.arr [])
      -- 2) the preferred node first
      if preferNodeId.truthy then
        match nodesFind preferNodeId nodes with
        | .error e => ⟨.error e, [path]⟩
        | .ok node =>
          if node.truthy then
            match scanNode panel node with
            | ⟨.error e, rs⟩ => ⟨.error e, path :: rs⟩
            | ⟨.ok (some r), rs⟩ => ⟨.ok r, path :: rs⟩
            | ⟨.ok none, rs⟩ => scanNodes panel (path :: rs) nodes
          else scanNodes panel [path] nodes
      else
        -- 3) all nodes
        scanNodes panel [path] nodes

/-- The object literal `{ ip, port }` returned by `extractIpPortFromServer`. -/
structure IpPort where
  ip : JVal
  port : JVal

/-- `extractIpPortFromServer`, first line: `serverResp?.data?.attributes ||
serverResp?.attributes || serverResp`. -/
def candidateOf (serverResp : JVal) : JVal :=
  JVal.or (field "attributes" (field "data" serverResp))
    (JVal.or (field "attributes" serverResp) serverResp)

/-- `extractIpPortFromServer`, second line: `candidate?.relationships?.allocations?.data
|| candidate?.attributes?.allocation || candidate?.attributes?.allocations ||
candidate?.allocations`. -/
def allocsOf (candidate : JVal) : JVal :=
  JVal.or (field "data" (field "allocations" (field "relationships" candidate)))
    (JVal.or (field "allocation" (field "attributes" candidate))
      (JVal.or (field "allocations" (field "attributes" candidate))
        (field "allocations" candidate)))

/-- The object literal `{ ip: x.ip || x.attributes?.ip, port: x.port ||
x.attributes?.port }`. -/
def ipPortOf (x : JVal) : Except JsError IpPort :=
  match ownOrNested x "ip" with
  | .error e => .error e
  | .ok ip =>
    match ownOrNested x "port" with
    | .error e => .error e
    | .ok port => .ok ⟨ip, port⟩

/-- `extractIpPortFromServer`, the fallback `try { … } catch (e) {}` block followed
by `return null`: an exception inside the block is swallowed. -/
def allocationFallback (candidate : JVal) : Option IpPort :=
  let a := field "allocation" (field "attributes" candidate)
  if a.truthy then
    match ipPortOf a with
    | .ok r => some r
    | .error _ => none
  else none

/-- `Ptero.extractIpPortFromServer(serverResp)`; `null` is `none`. -/
def extractIpPortFromServer (serverResp : JVal) : Except JsError (Option IpPort) :=
  let candidate := candidateOf serverResp
  let allocs := allocsOf candidate
  match allocs with
  | .arr (first :: _) =>
    -- `Array.isArray(allocs) && allocs.length > 0`
    match orElse (dot first "attributes") (.ok first) with
    | .error e => .error e
    | .ok main =>
      match ipPortOf main with
      | .error e => .error e
      | .ok r => .ok (some r)
  | _ => .ok (allocationFallback candidate)

/-! ## `src/index.js`, button branch of the `InteractionCreate` handler -/

/-- The environment variables the button branch reads from `process.env`; an unset
variable is `none` (`undefined`). -/
structure Env where
  ADMIN_IDS : Option String
  PTERO_URL : Option String
  CREDENTIALS_ENCRYPTION_KEY : Option String

/-- Modelled from the spec: the record shape of `models/Server` (absent from the
sources), restricted to the fields the handler reads; spec section 3 lists them as
`discordOwnerId`, `pteroEmail`, `encryptedPassword`, `serverName`. They are strings. -/
structure ServerRecord where
  discordOwnerId : String
  pteroEmail : String
  encryptedPassword : String
  serverName : String

/-- `ServerModel.findById(id).lean()`: the record, `null` (here `none`) when there is
none, or a thrown error (for instance a cast error on a malformed id). -/
abbrev Storage := String → Except JsError (Option ServerRecord)

/-- The imported `decrypt(blob, key)` of `utils/crypto` (absent from the sources):
the plaintext, or a thrown error. -/
abbrev Decrypt := String → Option String → Except JsError String

/-- What the handler does to the outside world, in order. -/
inductive Effect where
  | deferReply (ephemeral : Bool)
  | findById (id : String)
  | decrypt (blob : String) (key : Option String)
  | editReply (content : String) (ephemeral : Option Bool)
  | logError (e : JsError)
  deriving DecidableEq

/-- `s.startsWith(p)`. -/
def startsWith (s p : String) : Bool :=
  p.data.isPrefixOf s.data

/-- `String.prototype.replace` with a string pattern, on code points: the first
occurrence of `pat`, searching from the left, is replaced by `rep`. -/
def replaceFirstChars (pat rep : List Char) : List Char → List Char
  | [] => if pat.isEmpty then rep else []
  | c :: cs =>
    if pat.isPrefixOf (c :: cs) then rep ++ (c :: cs).drop pat.length
    else c :: replaceFirstChars pat rep cs

/-- `s.replace(pat, rep)` for a string `pat` and a replacement `rep` without `$`. -/
def replaceFirst (s pat rep : String) : String :=
  String.mk (replaceFirstChars pat.data rep.data s.data)

/-- `s.split(',')` on code points. -/
def splitComma : List Char → List (List Char)
  | [] => [[]]
  | c :: cs =>
    if c = ',' then [] :: splitComma cs
    else
      match splitComma cs with
      | [] => [[c]]
      | p :: ps => (c :: p) :: ps

/-- The code points `String.prototype.trim` strips: ECMAScript WhiteSpace and
LineTerminator. -/
def isJsSpace (c : Char) : Bool :=
  c.val = 0x09 || c.val = 0x0A || c.val = 0x0B || c.val = 0x0C || c.val = 0x0D ||
  c.val = 0x20 || c.val = 0xA0 || c.val = 0x1680 ||
  (0x2000 ≤ c.val && c.val ≤ 0x200A) ||
  c.val = 0x2028 || c.val = 0x2029 || c.val = 0x202F || c.val = 0x205F ||
  c.val = 0x3000 || c.val = 0xFEFF

/-- `s.trim()` on code points. -/
def trimChars (cs : List Char) : List Char :=
  ((cs.dropWhile isJsSpace).reverse.dropWhile isJsSpace).reverse

/-- The handler's `process.env.ADMIN_IDS || ''`. -/
def adminSource (env : Env) : String :=
  match env.ADMIN_IDS with
  | some s => if s != "" then s else ""
  | none => ""

/-- The handler's `(process.env.ADMIN_IDS || '').split(',').map(s => s.trim())
.filter(Boolean)`. -/
def adminIds (env : Env) : List String :=
  (((splitComma (adminSource env).data).map trimChars).filter fun p => !p.isEmpty).map
    String.mk

/-- The handler's `isOwner`: `interaction.user.id === server.discordOwnerId`. -/
def isOwner (userId : String) (server : ServerRecord) : Bool :=
  userId == server.discordOwnerId

/-- The handler's `isAdmin`: `adminIds.includes(interaction.user.id)`. -/
def isAdmin (env : Env) (userId : String) : Bool :=
  (adminIds env).contains userId

/-- The handler's gate condition `!isOwner && !isAdmin`. -/
def accessDenied (env : Env) (userId : String) (server : ServerRecord) : Bool :=
  !isOwner userId server && !isAdmin env userId

/-- Template-literal interpolation of an environment variable. -/
def envText : Option String → String
  | some s => s
  | none => "undefined"

/-- The template literal `msg` of the handler. -/
def loginMessage (env : Env) (server : ServerRecord) (password : String) : String :=
  "**Panel URL:** " ++ envText env.PTERO_URL ++ "\n**Email/Username:** " ++
    server.pteroEmail ++ "\n**Password:** " ++ password ++ "\n**Server Name:** " ++
    server.serverName ++ "\n\n_This message is only visible to you._"

/-- The `catch (err)` block of the handler once `deferReply` has run
(`interaction.deferred` is true): log, then edit the reply. -/
def onError (e : JsError) : List Effect :=
  [.logError e, .editReply "An error occurred." none]

/-- The `interaction.isButton()` branch of the `InteractionCreate` handler, with its
`catch` block, for a button with custom id `cid` pressed by user `userId`.  The
replies themselves (`deferReply`, `editReply`) are taken not to throw. -/
def onButton (env : Env) (storage : Storage) (decrypt : Decrypt) (cid userId : String) :
    List Effect :=
  if !startsWith cid "view_login_" then []
  else
    let dbId := replaceFirst cid "view_login_" ""
    [.deferReply true, .findById dbId] ++
    match storage dbId with
    | .error e => onError e
    | .ok none => [.editReply "Server not found." (some true)]
    | .ok (some server) =>
      if accessDenied env userId server then
        [.editReply "You are not allowed to view these credentials." (some true)]
      else
        .decrypt server.encryptedPassword env.CREDENTIALS_ENCRYPTION_KEY ::
        match decrypt server.encryptedPassword env.CREDENTIALS_ENCRYPTION_KEY with
        | .error e => onError e
        | .ok password => [.editReply (loginMessage env server password) (some true)]

/-- The handler run on the button `view_login_<recordId>` pressed by `userId`. -/
def pressViewLogin (env : Env) (storage : Storage) (decrypt : Decrypt)
    (recordId userId : String) : List Effect :=
  onButton env storage decrypt ("view_login_" ++ recordId) userId

/-- The reply of the gate when it denies the requester. -/
def forbiddenReply : Effect :=
  .editReply "You are not allowed to view these credentials." (some true)

/-- The reply when no record exists for the id. -/
def notFoundReply : Effect :=
  .editReply "Server not found." (some true)

/-! ## Specification-side notions -/

/-- The value of `a.attributes || a` for an entry `a` that is not `null`. -/
def attrOf (a : JVal) : JVal :=
  JVal.or (field "attributes" a) a

/-- The classification `scanNode` applies to the attributes of an allocation entry:
a present `assigned` property (any value but `undefined`) decides by its truthiness,
an absent one defers to the truthiness of `server_id`. -/
def classifiedAssigned (attr : JVal) : Bool :=
  match field "assigned" attr with
  | .undefined => (field "server_id" attr).truthy
  | v => v.truthy

/-- The classification as the specification words it: an explicit boolean `assigned`
is used as it is; without a boolean `assigned` (absent, `null`, any non-boolean) the
entry is assigned exactly when `server_id` is truthy. -/
def assignedByBooleanRule (attr : JVal) : Bool :=
  match field "assigned" attr with
  | .bool b => b
  | _ => (field "server_id" attr).truthy

/-- The candidate `{ allocationId, ip, port, nodeId }` built from the attributes of
an entry. -/
def candidateAt (nodeId attr : JVal) : Candidate :=
  { allocationId :=
      JVal.or (field "id" attr)
        (JVal.or (field "id" (field "attributes" attr))
          (JVal.or (field "allocation" (field "attributes" attr))
            (field "allocation_id" (field "attributes" attr))))
    ip := JVal.or (field "ip" attr) (field "ip" (field "attributes" attr))
    port := JVal.or (field "port" attr) (field "port" (field "attributes" attr))
    nodeId := nodeId }

/-- The test the scan applies to an entry: it is classified as unassigned. -/
def isFree (a : JVal) : Bool :=
  !classifiedAssigned (attrOf a)

/-- One node of a location: the node entry of the node list, its resolved identifier,
and the allocations the node holds. -/
structure NodeEntry where
  node : JVal
  nodeId : JVal
  allocs : List JVal

/-- The panel serves `e`: the node entry is not `null` and `nodeId` is the identifier
`scanNode` resolves for it; when that identifier is truthy, `allocs` is the allocation
list (wrapped in `data` or bare) the panel returns for it and none of its entries is
`null`.  Nothing is asked of the allocations of a node whose identifier is falsy. -/
def ServesNode (panel : Panel) (e : NodeEntry) : Prop :=
  e.node.isNullish = false ∧
  resolveNodeId e.node = .ok e.nodeId ∧
  (e.nodeId.truthy = true →
    (∃ path body, allocationsPath e.nodeId = .ok path ∧ panel path = .ok body ∧
      allocsOfBody body = .arr e.allocs) ∧
    ∀ a ∈ e.allocs, a.isNullish = false)

/-- The panel serves the inventory `inv` for `locationId`: the node request succeeds
with a body whose `data` is the list of the node entries, and every node is served. -/
def Serves (panel : Panel) (locationId : JVal) (inv : List NodeEntry) : Prop :=
  (∃ path body, nodesPath locationId = .ok path ∧ panel path = .ok body ∧
    field "data" body = .arr (inv.map NodeEntry.node)) ∧
  ∀ e ∈ inv, ServesNode panel e

/-- The allocations of a node that a scan can reach: all of them when the resolved
identifier of the node is truthy, none when it is falsy (such a node is skipped
without a request). -/
def reachableAllocs (e : NodeEntry) : List JVal :=
  if e.nodeId.truthy then e.allocs else []

/-- The allocations of an inventory in scan order, nodes in node-list order and the
reachable allocations of a node in the order the panel returned them, each paired
with the identifier of its node. -/
def scanOrder (inv : List NodeEntry) : List (JVal × JVal) :=
  inv.flatMap fun e => (reachableAllocs e).map fun a => (e.nodeId, a)

/-- The first allocation in scan order that `scanNode` classifies as unassigned. -/
def firstFree (inv : List NodeEntry) : Option (JVal × JVal) :=
  (scanOrder inv).find? fun p => isFree p.2

/-- The first allocation, nodes in node-list order and the allocations of a node in
the order returned, that the specification's boolean rule classifies as unassigned. -/
def firstUnassignedByBooleanRule (inv : List NodeEntry) : Option (JVal × JVal) :=
  (inv.flatMap fun e => e.allocs.map fun a => (e.nodeId, a)).find? fun p =>
    !assignedByBooleanRule (attrOf p.2)

/-- The outcome of a scan of the inventory: the candidate of the first allocation
classified as unassigned, or the error `No free allocations found`. -/
def scanOutcome (inv : List NodeEntry) : Except JsError Candidate :=
  match firstFree inv with
  | some p => .ok (candidateAt p.1 (attrOf p.2))
  | none => .error (.error "No free allocations found")

/-- The locations `extractIpPortFromServer` reads allocation data from, in precedence
order: `relationships.allocations.data`, `attributes.allocation`,
`attributes.allocations`, `allocations` (all read from the unwrapped candidate). -/
def allocLocations (candidate : JVal) : List JVal :=
  [field "data" (field "allocations" (field "relationships" candidate)),
   field "allocation" (field "attributes" candidate),
   field "allocations" (field "attributes" candidate),
   field "allocations" candidate]

/-- The pure value of `{ ip: x.ip || x.attributes?.ip, port: x.port ||
x.attributes?.port }` for an `x` that is not `null`. -/
def ipPortAt (x : JVal) : IpPort :=
  { ip := JVal.or (field "ip" x) (field "ip" (field "attributes" x))
    port := JVal.or (field "port" x) (field "port" (field "attributes" x)) }

/-- A location holds allocation data: it is a non-empty list or an object. -/
def holdsData : JVal → Bool
  | .arr (_ :: _) => true
  | .obj _ => true
  | _ => false

/-- The allocation a location holds: the first element of a list, unwrapped from
`attributes`, or the object itself. -/
def heldAllocation : JVal → JVal
  | .arr (first :: _) => attrOf first
  | v => v

/-- Extraction as the specification words it: the `{ip, port}` of the first location,
in precedence order, that holds allocation data; `none` when no location does. -/
def extractByFirstHolding (serverResp : JVal) : Option IpPort :=
  ((allocLocations (candidateOf serverResp)).find? holdsData).map fun v =>
    ipPortAt (heldAllocation v)

/-- Extraction by first truthy location: the first truthy location in precedence
order is the only list consulted; if it is a non-empty list the `{ip, port}` of its
first element is the result, otherwise the result is the `{ip, port}` of
`attributes.allocation` when that is truthy, and `none` when it is not. -/
def extractByFirstTruthy (serverResp : JVal) : Option IpPort :=
  match (allocLocations (candidateOf serverResp)).find? JVal.truthy with
  | some (.arr (first :: _)) => some (ipPortAt (attrOf first))
  | _ =>
    let a := field "allocation" (field "attributes" (candidateOf serverResp))
    if a.truthy then some (ipPortAt a) else none

/-- The first element of the first truthy location is `null`: the one shape on which
the unwrapping `allocs[0].attributes` throws. -/
def firstElementNull (serverResp : JVal) : Bool :=
  match (allocLocations (candidateOf serverResp)).find? JVal.truthy with
  | some (.arr (first :: _)) => first.isNullish
  | _ => false

/-- The condition of an exhausted location read literally: the entry has
`assigned = true`, or it has a truthy `server_id`. -/
def assignedOrServed (attr : JVal) : Bool :=
  match field "assigned" attr with
  | .bool true => true
  | _ => (field "server_id" attr).truthy

/-! ## Concrete inputs -/

/-- An allocation entry in the panel's wrapped shape `{ attributes: {…} }`. -/
def allocationEntry (id : Int) (ip : String) (port : Int) (assigned : Bool) : JVal :=
  .obj [("attributes", .obj [("id", .num id), ("ip", .str ip), ("port", .num port),
    ("assigned", .bool assigned)])]

/-- A node entry identified by `attributes.id`. -/
def nodeWithId (id : Int) : JVal :=
  .obj [("attributes", .obj [("id", .num id)])]

/-- A node entry identified only by `attributes.identifier`. -/
def nodeWithIdentifier (name : String) : JVal :=
  .obj [("attributes", .obj [("identifier", .str name)])]

/-- A location with two nodes: node 1 holds an assigned and then a free allocation,
node 2 holds a free allocation. -/
def twoNodePanel : Panel := fun p =>
  if p = "/locations/1/nodes" then
    .ok (.obj [("data", .arr [nodeWithId 1, nodeWithId 2])])
  else if p = "/nodes/1/allocations" then
    .ok (.obj [("data", .arr [allocationEntry 11 "10.0.0.1" 25565 true,
      allocationEntry 12 "10.0.0.1" 25566 false])])
  else if p = "/nodes/2/allocations" then
    .ok (.obj [("data", .arr [allocationEntry 21 "10.0.0.2" 25565 false])])
  else .error (.transport "404")

/-- The inventory `twoNodePanel` serves for location 1. -/
def twoNodeInventory : List NodeEntry :=
  [{ node := nodeWithId 1
     nodeId := .num 1
     allocs := [allocationEntry 11 "10.0.0.1" 25565 true,
       allocationEntry 12 "10.0.0.1" 25566 false] },
   { node := nodeWithId 2
     nodeId := .num 2
     allocs := [allocationEntry 21 "10.0.0.2" 25565 false] }]

/-- A location whose nodes are identified only by `attributes.identifier`, each
holding one free allocation. -/
def identifierPanel : Panel := fun p =>
  if p = "/locations/1/nodes" then
    .ok (.obj [("data", .arr [nodeWithIdentifier "n1", nodeWithIdentifier "n2"])])
  else if p = "/nodes/n1/allocations" then
    .ok (.obj [("data", .arr [allocationEntry 11 "10.0.0.1" 25565 false])])
  else if p = "/nodes/n2/allocations" then
    .ok (.obj [("data", .arr [allocationEntry 22 "10.0.0.2" 25566 false])])
  else .error (.transport "404")

/-- A location with one node, whose allocations are all assigned; the second one is
bare (no `attributes` wrapper), has no `assigned` property and a truthy `server_id`. -/
def fullPanel : Panel := fun p =>
  if p = "/locations/1/nodes" then
    .ok (.obj [("data", .arr [nodeWithId 1])])
  else if p = "/nodes/1/allocations" then
    .ok (.arr [allocationEntry 11 "10.0.0.1" 25565 true,
      .obj [("id", .num 12), ("ip", .str "10.0.0.1"), ("port", .num 25566),
        ("server_id", .num 4)]])
  else .error (.transport "404")

/-- The inventory `fullPanel` serves for location 1. -/
def fullInventory : List NodeEntry :=
  [{ node := nodeWithId 1
     nodeId := .num 1
     allocs := [allocationEntry 11 "10.0.0.1" 25565 true,
       .obj [("id", .num 12), ("ip", .str "10.0.0.1"), ("port", .num 25566),
         ("server_id", .num 4)]] }]

/-- An allocation entry whose `assigned` property is `null` and whose `server_id` is
truthy. -/
def nullAssigned : JVal :=
  .obj [("attributes", .obj [("id", .num 41), ("ip", .str "10.0.0.4"),
    ("port", .num 25565), ("assigned", .null), ("server_id", .num 5)])]

/-- A location with one node whose only allocation is `nullAssigned`. -/
def nullOnlyPanel : Panel := fun p =>
  if p = "/locations/1/nodes" then
    .ok (.obj [("data", .arr [nodeWithId 1])])
  else if p = "/nodes/1/allocations" then
    .ok (.obj [("data", .arr [nullAssigned])])
  else .error (.transport "404")

/-- The inventory `nullOnlyPanel` serves for location 1. -/
def nullOnlyInventory : List NodeEntry :=
  [{ node := nodeWithId 1, nodeId := .num 1, allocs := [nullAssigned] }]

/-- A location with one node that holds `nullAssigned` followed by an allocation with
`assigned: false`. -/
def nullFirstPanel : Panel := fun p =>
  if p = "/locations/1/nodes" then
    .ok (.obj [("data", .arr [nodeWithId 1])])
  else if p = "/nodes/1/allocations" then
    .ok (.obj [("data", .arr [nullAssigned, allocationEntry 12 "10.0.0.1" 25566 false])])
  else .error (.transport "404")

/-- The inventory `nullFirstPanel` serves for location 1. -/
def nullFirstInventory : List NodeEntry :=
  [{ node := nodeWithId 1
     nodeId := .num 1
     allocs := [nullAssigned, allocationEntry 12 "10.0.0.1" 25566 false] }]

/-- A location whose only node has the identifier `0` and holds an allocation with
`assigned: false`. -/
def zeroIdPanel : Panel := fun p =>
  if p = "/locations/1/nodes" then
    .ok (.obj [("data", .arr [nodeWithId 0])])
  else if p = "/nodes/0/allocations" then
    .ok (.obj [("data", .arr [allocationEntry 51 "10.0.0.5" 25565 false])])
  else .error (.transport "404")

/-- A preferred node id that `String` cannot convert: an object with an own,
non-callable `toString` property. -/
def unprintableId : JVal :=
  .obj [("toString", .num 1)]

/-- A creation response whose `relationships.allocations.data` is an empty list
while the top-level `allocations` holds an allocation. -/
def shadowedResponse : JVal :=
  .obj [("relationships", .obj [("allocations", .obj [("data", .arr [])])]),
    ("allocations", .arr [.obj [("ip", .str "1.2.3.4"), ("port", .num 25565)]])]

/-- A creation response, wrapped in `attributes`, whose
`relationships.allocations.data` is an empty list while its `attributes.allocation`
holds an allocation object. -/
def fallbackResponse : JVal :=
  .obj [("attributes", .obj [
    ("relationships", .obj [("allocations", .obj [("data", .arr [])])]),
    ("attributes", .obj [("allocation",
      .obj [("ip", .str "1.2.3.4"), ("port", .num 25565)])])])]

/-- A creation response whose allocation list is non-empty with a `null` first
element. -/
def nullFirstResponse : JVal :=
  .obj [("allocations", .arr [.null])]

/-- A configuration with two admins, written with surrounding blanks and empty
entries. -/
def sampleEnv : Env :=
  { ADMIN_IDS := some " 123 , ,Abc,,"
    PTERO_URL := some "https://panel.example"
    CREDENTIALS_ENCRYPTION_KEY := some "k1" }

/-- The record stored under the id `r1`. -/
def sampleRecord : ServerRecord :=
  { discordOwnerId := "user123"
    pteroEmail := "user123@example.org"
    encryptedPassword := "blob1"
    serverName := "srv" }

/-- A storage holding `sampleRecord` under `r1` and nothing else. -/
def sampleStorage : Storage := fun id =>
  if id = "r1" then .ok (some sampleRecord) else .ok none

/-- A decryption that succeeds on `blob1` only. -/
def sampleDecrypt : Decrypt := fun blob _ =>
  if blob = "blob1" then .ok "hunter2" else .error (.error "DecryptionFailed")


/-! ## Lemmas on the embedded operators -/

set_option maxRecDepth 100000

theorem dot_of_not_nullish (v : JVal) (k : String) (h : v.isNullish = false) :
    dot v k = .ok (field k v) := by
  simp [dot, h]

theorem not_nullish_of_truthy (v : JVal) (h : v.truthy = true) : v.isNullish = false := by
  cases v <;> simp_all [truthy, isNullish]

theorem attrOf_not_nullish (a : JVal) (h : a.isNullish = false) :
    (attrOf a).isNullish = false := by
  unfold attrOf JVal.or
  split
  · exact not_nullish_of_truthy _ (by assumption)
  · exact h

theorem orElse_ok (a : JVal) (b : Except JsError JVal) :
    orElse (.ok a) b = if a.truthy then .ok a else b := rfl

theorem allocAttr_eq (a : JVal) (h : a.isNullish = false) : allocAttr a = .ok (attrOf a) := by
  unfold allocAttr attrOf JVal.or
  rw [dot_of_not_nullish a _ h, orElse_ok]
  split <;> rfl

theorem assignedOf_truthy (attr : JVal) (h : attr.isNullish = false) :
    ∃ v, assignedOf attr = .ok v ∧ v.truthy = classifiedAssigned attr := by
  unfold assignedOf classifiedAssigned
  rw [dot_of_not_nullish attr _ h, dot_of_not_nullish attr _ h]
  cases hv : field "assigned" attr <;> simp [isUndefined, Except.map, truthy]

theorem ownOrNested_eq (x : JVal) (k : String) (h : x.isNullish = false) :
    ownOrNested x k = .ok (JVal.or (field k x) (field k (field "attributes" x))) := by
  unfold ownOrNested JVal.or
  rw [dot_of_not_nullish x _ h, dot_of_not_nullish x _ h, orElse_ok]
  split <;> simp [Except.map]

theorem allocIdOf_eq (attr : JVal) (h : attr.isNullish = false) :
    allocIdOf attr = .ok (candidateAt .undefined attr).allocationId := by
  unfold allocIdOf candidateAt JVal.or
  simp only [dot_of_not_nullish attr _ h, orElse_ok, Except.map]
  repeat' split
  all_goals rfl

theorem scanAllocs_cons (nodeId a : JVal) (rest : List JVal) (h : a.isNullish = false) :
    scanAllocs nodeId (a :: rest) =
      if isFree a then .ok (some (candidateAt nodeId (attrOf a)))
      else scanAllocs nodeId rest := by
  have hattr := attrOf_not_nullish a h
  obtain ⟨v, hv, hvt⟩ := assignedOf_truthy (attrOf a) hattr
  rw [scanAllocs, allocAttr_eq a h]
  simp only [hv, allocIdOf_eq _ hattr, ownOrNested_eq _ _ hattr, hvt, isFree]
  by_cases hc : classifiedAssigned (attrOf a) = true
  · simp [hc]
  · simp [hc, candidateAt]

theorem scanAllocs_eq_find (nodeId : JVal) (allocs : List JVal)
    (h : ∀ a ∈ allocs, a.isNullish = false) :
    scanAllocs nodeId allocs =
      .ok ((allocs.find? isFree).map fun a => candidateAt nodeId (attrOf a)) := by
  induction allocs with
  | nil => rfl
  | cons a rest ih =>
    rw [scanAllocs_cons nodeId a rest (h a (List.mem_cons_self _ _))]
    rw [List.find?_cons]
    cases hf : isFree a
    · simp [ih (fun b hb => h b (List.mem_cons_of_mem _ hb))]
    · simp

theorem classifiedAssigned_eq_booleanRule (attr : JVal)
    (h : (∃ b, field "assigned" attr = .bool b) ∨ field "assigned" attr = .undefined) :
    classifiedAssigned attr = assignedByBooleanRule attr := by
  unfold classifiedAssigned assignedByBooleanRule
  rcases h with ⟨b, hb⟩ | hu
  · rw [hb]
    rfl
  · rw [hu]

theorem scanAllocs_some_mem (nodeId : JVal) (allocs : List JVal) (c : Candidate)
    (h : scanAllocs nodeId allocs = .ok (some c)) :
    ∃ x ∈ allocs, x.isNullish = false ∧ classifiedAssigned (attrOf x) = false ∧
      c = candidateAt nodeId (attrOf x) := by
  induction allocs with
  | nil => simp [scanAllocs] at h
  | cons a rest ih =>
    by_cases ha : a.isNullish = true
    · simp [scanAllocs, allocAttr, dot, ha, orElse] at h
    · have ha' : a.isNullish = false := by simpa using ha
      rw [scanAllocs_cons nodeId a rest ha'] at h
      by_cases hf : isFree a = true
      · rw [if_pos hf] at h
        injection h with h
        injection h with h
        exact ⟨a, List.mem_cons_self _ _, ha', by simpa [isFree] using hf, h.symm⟩
      · rw [if_neg hf] at h
        obtain ⟨x, hx, hrest⟩ := ih h
        exact ⟨x, List.mem_cons_of_mem _ hx, hrest⟩

theorem assignedOf_cases (attr : JVal) (h : attr.isNullish = false) :
    ∃ v, assignedOf attr = .ok v ∧
      (∀ b, field "assigned" attr = .bool b → v = .bool b) ∧
      (field "assigned" attr = .undefined → v = .bool (field "server_id" attr).truthy) ∧
      (field "assigned" attr ≠ .undefined → v = field "assigned" attr) ∧
      v.truthy = classifiedAssigned attr := by
  unfold assignedOf classifiedAssigned
  rw [dot_of_not_nullish attr _ h, dot_of_not_nullish attr _ h]
  cases hv : field "assigned" attr <;> simp [isUndefined, Except.map, truthy]

/-! ## The scan of a served inventory -/

theorem scanNode_result (panel : Panel) (e : NodeEntry) (h : ServesNode panel e) :
    (scanNode panel e.node).result =
      .ok (((reachableAllocs e).find? isFree).map fun a => candidateAt e.nodeId (attrOf a)) := by
  obtain ⟨_, hid, htruthy⟩ := h
  unfold scanNode reachableAllocs
  simp only [hid]
  cases ht : e.nodeId.truthy
  · simp
  · obtain ⟨⟨path, body, hp, hb, hallocs⟩, hall⟩ := htruthy ht
    simp [hp, hb, hallocs, iterate, scanAllocs_eq_find _ _ hall]

theorem firstFree_cons (e : NodeEntry) (inv : List NodeEntry) :
    firstFree (e :: inv) =
      (((reachableAllocs e).find? isFree).map fun a => (e.nodeId, a)).or (firstFree inv) := by
  unfold firstFree scanOrder
  rw [List.flatMap_cons, List.find?_append, List.find?_map]
  rfl

theorem scanAll_result (panel : Panel) (inv : List NodeEntry)
    (h : ∀ e ∈ inv, ServesNode panel e) (before : List String) :
    (scanAll panel before (inv.map NodeEntry.node)).result = scanOutcome inv := by
  induction inv generalizing before with
  | nil => rfl
  | cons e inv ih =>
    have he := scanNode_result panel e (h e (List.mem_cons_self _ _))
    have ih' := fun b => ih (fun x hx => h x (List.mem_cons_of_mem _ hx)) b
    rw [List.map_cons, scanAll]
    unfold scanOutcome
    rw [firstFree_cons]
    rcases hs : scanNode panel e.node with ⟨res, rs⟩
    rw [hs] at he
    simp only at he
    subst he
    cases hf : (reachableAllocs e).find? isFree with
    | none => simpa [scanOutcome] using ih' (before ++ rs)
    | some a => simp

theorem toStr_of_falsy (v : JVal) (h : v.truthy = false) : ∃ s, toStr v = .ok s := by
  cases v <;> simp_all [truthy, toStr]

theorem preferredKey_eq (n : JVal) (h : n.isNullish = false) :
    orElse ((dot n "attributes").map (field "id")) (dot n "id") =
      .ok (JVal.or (field "id" (field "attributes" n)) (field "id" n)) := by
  unfold JVal.or
  simp only [dot_of_not_nullish n _ h, Except.map, orElse_ok]
  split <;> rfl

theorem resolveNodeId_of_key_truthy (n : JVal) (h : n.isNullish = false)
    (ht : (JVal.or (field "id" (field "attributes" n)) (field "id" n)).truthy = true) :
    resolveNodeId n = .ok (JVal.or (field "id" (field "attributes" n)) (field "id" n)) := by
  unfold resolveNodeId
  unfold JVal.or at ht ⊢
  simp only [dot_of_not_nullish n _ h, Except.map, orElse_ok]
  by_cases h1 : (field "id" (field "attributes" n)).truthy = true
  · simp [h1]
  · have h1f : (field "id" (field "attributes" n)).truthy = false := by simpa using h1
    rw [h1f] at ht
    simp only [Bool.false_eq_true, if_false] at ht
    simp [h1f, ht]

theorem preferredKey_printable (panel : Panel) (e : NodeEntry) (h : ServesNode panel e) :
    ∃ s, toStr (JVal.or (field "id" (field "attributes" e.node)) (field "id" e.node)) =
      .ok s := by
  obtain ⟨hnn, hid, htruthy⟩ := h
  by_cases hk :
      (JVal.or (field "id" (field "attributes" e.node)) (field "id" e.node)).truthy = true
  · have := resolveNodeId_of_key_truthy _ hnn hk
    rw [hid] at this
    injection this with this
    rw [← this]
    obtain ⟨⟨path, body, hp, _, _⟩, _⟩ := htruthy (by rw [this]; exact hk)
    unfold allocationsPath at hp
    cases hts : toStr e.nodeId with
    | ok s => exact ⟨s, rfl⟩
    | error err => simp [hts] at hp
  · exact toStr_of_falsy _ (by simpa using hk)

theorem isPreferred_ok (panel : Panel) (pn : JVal) (e : NodeEntry) (h : ServesNode panel e)
    (hpn : ∃ s, toStr pn = .ok s) : ∃ b, isPreferred pn e.node = .ok b := by
  obtain ⟨s, hs⟩ := preferredKey_printable panel e h
  obtain ⟨t, ht⟩ := hpn
  unfold isPreferred
  rw [preferredKey_eq _ h.1]
  simp [hs, ht]

theorem isPreferred_error (panel : Panel) (pn : JVal) (e : NodeEntry)
    (h : ServesNode panel e) (err : JsError) (hpn : toStr pn = .error err) :
    isPreferred pn e.node = .error err := by
  obtain ⟨s, hs⟩ := preferredKey_printable panel e h
  unfold isPreferred
  rw [preferredKey_eq _ h.1]
  simp [hs, hpn]

theorem findPreferred_ok (panel : Panel) (pn : JVal) (inv : List NodeEntry)
    (h : ∀ e ∈ inv, ServesNode panel e) (hpn : ∃ s, toStr pn = .ok s) :
    ∃ v, findPreferred pn (inv.map NodeEntry.node) = .ok v ∧
      (v.truthy = true → ∃ e ∈ inv, v = e.node) := by
  induction inv with
  | nil => exact ⟨.undefined, rfl, by simp [truthy]⟩
  | cons e inv ih =>
    obtain ⟨b, hb⟩ := isPreferred_ok panel pn e (h e (List.mem_cons_self _ _)) hpn
    obtain ⟨v, hv, hmem⟩ := ih (fun x hx => h x (List.mem_cons_of_mem _ hx))
    rw [List.map_cons, findPreferred, hb]
    cases b
    · refine ⟨v, hv, fun ht => ?_⟩
      obtain ⟨x, hx, hxe⟩ := hmem ht
      exact ⟨x, List.mem_cons_of_mem _ hx, hxe⟩
    · exact ⟨e.node, rfl, fun _ => ⟨e, List.mem_cons_self _ _, rfl⟩⟩

theorem nodes_of_serves (body : JVal) (inv : List NodeEntry)
    (h : field "data" body = .arr (inv.map NodeEntry.node)) :
    JVal.or (field "data" body) (.arr []) = .arr (inv.map NodeEntry.node) := by
  simp [JVal.or, h, truthy]

theorem reachable_subset (e : NodeEntry) (x : JVal) (h : x ∈ reachableAllocs e) :
    e.nodeId.truthy = true ∧ x ∈ e.allocs := by
  unfold reachableAllocs at h
  cases ht : e.nodeId.truthy
  · simp [ht] at h
  · simpa [ht] using h

theorem firstFree_none (inv : List NodeEntry)
    (hall : ∀ e ∈ inv, ∀ x ∈ e.allocs, classifiedAssigned (attrOf x) = true) :
    firstFree inv = none := by
  unfold firstFree scanOrder
  rw [List.find?_eq_none]
  intro p hp
  rw [List.mem_flatMap] at hp
  obtain ⟨e, he, hpe⟩ := hp
  rw [List.mem_map] at hpe
  obtain ⟨x, hx, rfl⟩ := hpe
  simp [isFree, hall e he x (reachable_subset e x hx).2]

theorem exhausted_of_printable (panel : Panel)
    (locationId preferNodeId preferAllocationId : JVal)
    (inv : List NodeEntry) (h : Serves panel locationId inv)
    (hall : ∀ e ∈ inv, ∀ x ∈ e.allocs, classifiedAssigned (attrOf x) = true)
    (hpn : ∃ s, toStr preferNodeId = .ok s) :
    (findFreeAllocation panel locationId preferNodeId preferAllocationId).result =
      .error (.error "No free allocations found") := by
  obtain ⟨⟨path, body, hpath, hbody, hdata⟩, hnodes⟩ := h
  have hnone := firstFree_none inv hall
  have hscan : ∀ before, (scanNodes panel before (.arr (inv.map NodeEntry.node))).result =
      .error (.error "No free allocations found") := by
    intro before
    simp [scanNodes, iterate, scanAll_result panel inv hnodes, scanOutcome, hnone]
  have hpn' : ∃ s, toStr (defaultNull preferNodeId) = .ok s := by
    obtain ⟨s, hs⟩ := hpn
    cases preferNodeId <;> simp_all [defaultNull, toStr]
  unfold findFreeAllocation
  simp only [hpath, hbody, nodes_of_serves body inv hdata]
  split
  · obtain ⟨v, hv, hmem⟩ := findPreferred_ok panel _ inv hnodes hpn'
    simp only [nodesFind, hv]
    split
    · rename_i hvt
      obtain ⟨e, he, rfl⟩ := hmem hvt
      have hres := scanNode_result panel e (hnodes e he)
      have hfind : (reachableAllocs e).find? isFree = none := by
        rw [List.find?_eq_none]
        intro x hx
        simp [isFree, hall e he x (reachable_subset e x hx).2]
      rw [hfind] at hres
      rcases hs : scanNode panel e.node with ⟨res, rs⟩
      rw [hs] at hres
      simp only at hres
      subst hres
      simpa using hscan _
    · exact hscan _
  · exact hscan _

theorem exhausted_of_no_nodes (panel : Panel)
    (locationId preferNodeId preferAllocationId : JVal)
    (h : Serves panel locationId []) :
    (findFreeAllocation panel locationId preferNodeId preferAllocationId).result =
      .error (.error "No free allocations found") := by
  obtain ⟨⟨path, body, hpath, hbody, hdata⟩, _⟩ := h
  have hn := nodes_of_serves body [] hdata
  simp only [List.map_nil] at hn
  unfold findFreeAllocation
  simp only [hpath, hbody, hn]
  split <;> simp [nodesFind, findPreferred, truthy, scanNodes, iterate, scanAll]

theorem typeError_of_unprintable (panel : Panel)
    (locationId preferNodeId preferAllocationId : JVal)
    (inv : List NodeEntry) (h : Serves panel locationId inv) (hne : inv ≠ [])
    (err : JsError) (hpn : toStr preferNodeId = .error err) :
    (findFreeAllocation panel locationId preferNodeId preferAllocationId).result =
      .error err := by
  obtain ⟨⟨path, body, hpath, hbody, hdata⟩, hnodes⟩ := h
  have htruthy : preferNodeId.truthy = true := by
    cases ht : preferNodeId.truthy
    · obtain ⟨s, hs⟩ := toStr_of_falsy _ ht
      rw [hs] at hpn
      cases hpn
    · rfl
  have hdef : defaultNull preferNodeId = preferNodeId := by
    cases preferNodeId <;> first | rfl | simp [truthy] at htruthy
  cases inv with
  | nil => exact absurd rfl hne
  | cons e rest =>
    have hp := isPreferred_error panel preferNodeId e (hnodes e (List.mem_cons_self _ _))
      err hpn
    unfold findFreeAllocation
    simp only [hpath, hbody, nodes_of_serves body (e :: rest) hdata, hdef, htruthy]
    simp [nodesFind, findPreferred, hp]

/-! ## Claims on `findFreeAllocation` -/

/-- C1 (as amended): when the panel serves the node list and the allocation lists of a
location (no entry is `null`) and some node with a truthy resolved identifier holds an
allocation with `assigned = false`, `findFreeAllocation` called without a preferred
node (any falsy `preferNodeId`, `undefined` included) returns the candidate
`{nodeId, allocationId, ip, port}` of the first allocation that `scanNode` classifies
as unassigned, nodes taken in node-list order, a node whose resolved identifier is
falsy being skipped, and the allocations of a node in the order returned. -/
theorem findFreeAllocation_first_free (panel : Panel)
    (locationId preferNodeId preferAllocationId : JVal) (inv : List NodeEntry)
    (h : Serves panel locationId inv)
    (hfree : ∃ e ∈ inv, e.nodeId.truthy = true ∧
      ∃ x ∈ e.allocs, field "assigned" (attrOf x) = .bool false)
    (hpn : preferNodeId.truthy = false) :
    ∃ nodeId x, firstFree inv = some (nodeId, x) ∧
      (findFreeAllocation panel locationId preferNodeId preferAllocationId).result =
        .ok (candidateAt nodeId (attrOf x)) := by
  obtain ⟨⟨path, body, hpath, hbody, hdata⟩, hnodes⟩ := h
  obtain ⟨e, he, het, x, hx, hxa⟩ := hfree
  have hsome : (firstFree inv).isSome = true := by
    unfold firstFree
    rw [List.find?_isSome]
    refine ⟨(e.nodeId, x), ?_, ?_⟩
    · unfold scanOrder
      rw [List.mem_flatMap]
      refine ⟨e, he, List.mem_map.mpr ⟨x, ?_, rfl⟩⟩
      simpa [reachableAllocs, het] using hx
    · simp [isFree, classifiedAssigned, hxa, truthy]
  obtain ⟨⟨nodeId, y⟩, hy⟩ := Option.isSome_iff_exists.mp hsome
  refine ⟨nodeId, y, hy, ?_⟩
  have hpn' : (defaultNull preferNodeId).truthy = false := by
    cases preferNodeId <;> simp_all [defaultNull, truthy]
  unfold findFreeAllocation
  simp only [hpath, hbody, nodes_of_serves body inv hdata, hpn']
  simp [scanNodes, iterate, scanAll_result panel inv hnodes, scanOutcome, hy]

/-- The two-node panel serves `twoNodeInventory` for location 1. -/
theorem twoNodePanel_serves : Serves twoNodePanel (.num 1) twoNodeInventory := by
  refine ⟨⟨"/locations/1/nodes", _, rfl, rfl, rfl⟩, ?_⟩
  intro e he
  simp only [twoNodeInventory, List.mem_cons, List.mem_singleton, List.not_mem_nil,
    or_false] at he
  rcases he with rfl | rfl
  · refine ⟨rfl, rfl, fun _ => ⟨⟨"/nodes/1/allocations", _, rfl, rfl, rfl⟩, ?_⟩⟩
    intro a ha
    simp only [List.mem_cons, List.mem_singleton, List.not_mem_nil, or_false] at ha
    rcases ha with rfl | rfl
    · rfl
    · rfl
  · refine ⟨rfl, rfl, fun _ => ⟨⟨"/nodes/2/allocations", _, rfl, rfl, rfl⟩, ?_⟩⟩
    intro a ha
    simp only [List.mem_singleton] at ha
    subst ha
    rfl

/-- C1 (as amended) at the two-node panel: every hypothesis holds there. -/
theorem findFreeAllocation_first_free_witness :
    Serves twoNodePanel (.num 1) twoNodeInventory ∧
    (∃ e ∈ twoNodeInventory, e.nodeId.truthy = true ∧
      ∃ x ∈ e.allocs, field "assigned" (attrOf x) = .bool false) ∧
    JVal.undefined.truthy = false ∧
    ∃ nodeId x, firstFree twoNodeInventory = some (nodeId, x) ∧
      (findFreeAllocation twoNodePanel (.num 1) .undefined .undefined).result =
        .ok (candidateAt nodeId (attrOf x)) :=
  ⟨twoNodePanel_serves,
   ⟨_, List.mem_cons_self _ _, rfl, allocationEntry 12 "10.0.0.1" 25566 false,
     List.mem_cons_of_mem _ (List.mem_cons_self _ _), rfl⟩,
   rfl,
   findFreeAllocation_first_free twoNodePanel (.num 1) .undefined .undefined
     twoNodeInventory twoNodePanel_serves
     ⟨_, List.mem_cons_self _ _, rfl, allocationEntry 12 "10.0.0.1" 25566 false,
       List.mem_cons_of_mem _ (List.mem_cons_self _ _), rfl⟩ rfl⟩

/-- The run on the two-node panel, evaluated: allocation 11 of node 1 is assigned, so
allocation 12 of node 1 is returned and node 2 is never requested. -/
theorem twoNodePanel_first_free :
    firstFree twoNodeInventory =
      some (.num 1, allocationEntry 12 "10.0.0.1" 25566 false) ∧
    (findFreeAllocation twoNodePanel (.num 1) .undefined .undefined).result =
      .ok ⟨.num 12, .str "10.0.0.1", .num 25566, .num 1⟩ ∧
    (findFreeAllocation twoNodePanel (.num 1) .undefined .undefined).reads =
      ["/locations/1/nodes", "/nodes/1/allocations"] :=
  ⟨rfl, rfl, rfl⟩

/-- The panel `nullFirstPanel` serves `nullFirstInventory` for location 1. -/
theorem nullFirstPanel_serves : Serves nullFirstPanel (.num 1) nullFirstInventory := by
  refine ⟨⟨"/locations/1/nodes", _, rfl, rfl, rfl⟩, ?_⟩
  intro e he
  simp only [nullFirstInventory, List.mem_singleton] at he
  subst he
  refine ⟨rfl, rfl, fun _ => ⟨⟨"/nodes/1/allocations", _, rfl, rfl, rfl⟩, ?_⟩⟩
  intro a ha
  simp only [List.mem_cons, List.mem_singleton, List.not_mem_nil, or_false] at ha
  rcases ha with rfl | rfl
  · rfl
  · rfl

/-- C1, counterexample.  First input: node 1 holds an entry with `assigned: null` and
`server_id: 5`, which the specification's rule classifies as assigned, followed by
allocation 12 with `assigned: false`; the first unassigned allocation is 12, and
`findFreeAllocation` returns 41.  Second input: the only node has the identifier `0`
and holds allocation 51 with `assigned: false`; `scanNode` skips a node whose
identifier is falsy, and `findFreeAllocation` fails with `No free allocations found`. -/
theorem first_unassigned_counterexample :
    (Serves nullFirstPanel (.num 1) nullFirstInventory ∧
      field "assigned" (attrOf (allocationEntry 12 "10.0.0.1" 25566 false)) = .bool false ∧
      assignedByBooleanRule (attrOf nullAssigned) = true ∧
      firstUnassignedByBooleanRule nullFirstInventory =
        some (.num 1, allocationEntry 12 "10.0.0.1" 25566 false) ∧
      (findFreeAllocation nullFirstPanel (.num 1) .undefined .undefined).result =
        .ok ⟨.num 41, .str "10.0.0.4", .num 25565, .num 1⟩) ∧
    (zeroIdPanel "/locations/1/nodes" = .ok (.obj [("data", .arr [nodeWithId 0])]) ∧
      zeroIdPanel "/nodes/0/allocations" =
        .ok (.obj [("data", .arr [allocationEntry 51 "10.0.0.5" 25565 false])]) ∧
      field "assigned" (attrOf (allocationEntry 51 "10.0.0.5" 25565 false)) = .bool false ∧
      (findFreeAllocation zeroIdPanel (.num 1) .undefined .undefined).result =
        .error (.error "No free allocations found")) :=
  ⟨⟨nullFirstPanel_serves, rfl, rfl, rfl, rfl⟩, rfl, rfl, rfl, rfl⟩

/-- C6 (as amended): when the panel serves an inventory in which every allocation is
classified as assigned by `scanNode` (its `assigned` property is present and truthy,
or it has no `assigned` property and a truthy `server_id`), which includes a location
without nodes and nodes without allocations, `findFreeAllocation` returns no candidate
for every `preferNodeId`: it fails with `No free allocations found` whenever `String`
can convert `preferNodeId` or the node list is empty, and otherwise with the error
that the conversion `String(preferNodeId)` throws in the lookup of the preferred
node. -/
theorem findFreeAllocation_exhausted (panel : Panel)
    (locationId preferNodeId preferAllocationId : JVal)
    (inv : List NodeEntry) (h : Serves panel locationId inv)
    (hall : ∀ e ∈ inv, ∀ x ∈ e.allocs, classifiedAssigned (attrOf x) = true) :
    (((∃ s, toStr preferNodeId = .ok s) ∨ inv = []) →
      (findFreeAllocation panel locationId preferNodeId preferAllocationId).result =
        .error (.error "No free allocations found")) ∧
    (∀ err, toStr preferNodeId = .error err → inv ≠ [] →
      (findFreeAllocation panel locationId preferNodeId preferAllocationId).result =
        .error err) ∧
    (∀ c, (findFreeAllocation panel locationId preferNodeId preferAllocationId).result ≠
      .ok c) := by
  have h1 : ((∃ s, toStr preferNodeId = .ok s) ∨ inv = []) →
      (findFreeAllocation panel locationId preferNodeId preferAllocationId).result =
        .error (.error "No free allocations found") := by
    rintro (hp | rfl)
    · exact exhausted_of_printable panel locationId preferNodeId preferAllocationId inv h
        hall hp
    · exact exhausted_of_no_nodes panel locationId preferNodeId preferAllocationId h
  have h2 : ∀ err, toStr preferNodeId = .error err → inv ≠ [] →
      (findFreeAllocation panel locationId preferNodeId preferAllocationId).result =
        .error err :=
    fun err hp hne =>
      typeError_of_unprintable panel locationId preferNodeId preferAllocationId inv h hne
        err hp
  refine ⟨h1, h2, ?_⟩
  intro c hc
  cases hp : toStr preferNodeId with
  | ok s =>
    rw [h1 (Or.inl ⟨s, hp⟩)] at hc
    cases hc
  | error err =>
    by_cases hne : inv = []
    · rw [h1 (Or.inr hne)] at hc
      cases hc
    · rw [h2 err hp hne] at hc
      cases hc

/-- The full panel serves `fullInventory` for location 1. -/
theorem fullPanel_serves : Serves fullPanel (.num 1) fullInventory := by
  refine ⟨⟨"/locations/1/nodes", _, rfl, rfl, rfl⟩, ?_⟩
  intro e he
  simp only [fullInventory, List.mem_singleton] at he
  subst he
  refine ⟨rfl, rfl, fun _ => ⟨⟨"/nodes/1/allocations", _, rfl, rfl, rfl⟩, ?_⟩⟩
  intro a ha
  simp only [List.mem_cons, List.mem_singleton, List.not_mem_nil, or_false] at ha
  rcases ha with rfl | rfl
  · rfl
  · rfl

/-- The panel `nullOnlyPanel` serves `nullOnlyInventory` for location 1. -/
theorem nullOnlyPanel_serves : Serves nullOnlyPanel (.num 1) nullOnlyInventory := by
  refine ⟨⟨"/locations/1/nodes", _, rfl, rfl, rfl⟩, ?_⟩
  intro e he
  simp only [nullOnlyInventory, List.mem_singleton] at he
  subst he
  refine ⟨rfl, rfl, fun _ => ⟨⟨"/nodes/1/allocations", _, rfl, rfl, rfl⟩, ?_⟩⟩
  intro a ha
  simp only [List.mem_singleton] at ha
  subst ha
  rfl

/-- Every allocation of `fullInventory` is classified as assigned. -/
theorem fullInventory_assigned :
    ∀ e ∈ fullInventory, ∀ x ∈ e.allocs, classifiedAssigned (attrOf x) = true := by
  intro e he x hx
  simp only [fullInventory, List.mem_singleton] at he
  subst he
  simp only [List.mem_cons, List.mem_singleton, List.not_mem_nil, or_false] at hx
  rcases hx with rfl | rfl
  · rfl
  · rfl

/-- C6 (as amended) at the full panel: with the preferred node 1, present in the list,
the failure is `No free allocations found`; with a preferred node id that `String`
cannot convert it is the `TypeError` of the conversion. -/
theorem findFreeAllocation_exhausted_witness :
    Serves fullPanel (.num 1) fullInventory ∧
    (∀ e ∈ fullInventory, ∀ x ∈ e.allocs, classifiedAssigned (attrOf x) = true) ∧
    (findFreeAllocation fullPanel (.num 1) (.num 1) .undefined).result =
      .error (.error "No free allocations found") ∧
    (findFreeAllocation fullPanel (.num 1) unprintableId .undefined).result =
      .error .typeError :=
  ⟨fullPanel_serves, fullInventory_assigned,
   (findFreeAllocation_exhausted fullPanel (.num 1) (.num 1) .undefined fullInventory
     fullPanel_serves fullInventory_assigned).1 (Or.inl ⟨"1", rfl⟩),
   (findFreeAllocation_exhausted fullPanel (.num 1) unprintableId .undefined fullInventory
     fullPanel_serves fullInventory_assigned).2.1 .typeError rfl (by simp [fullInventory])⟩

/-- C6, counterexample: the only allocation of the location has `assigned: null` and
`server_id: 5`.  It has a truthy `server_id` and no boolean `assigned`, so the
specification's rule, and the bare reading `assigned = true` or truthy `server_id`
alike, count every allocation of the location as assigned; `scanNode` takes
`assigned = null` and `findFreeAllocation` returns the allocation instead of
failing. -/
theorem exhausted_null_assigned_counterexample :
    Serves nullOnlyPanel (.num 1) nullOnlyInventory ∧
    (nullOnlyInventory.all fun e => e.allocs.all fun x =>
      assignedByBooleanRule (attrOf x)) = true ∧
    (nullOnlyInventory.all fun e => e.allocs.all fun x =>
      assignedOrServed (attrOf x)) = true ∧
    (findFreeAllocation nullOnlyPanel (.num 1) .undefined .undefined).result =
      .ok ⟨.num 41, .str "10.0.0.4", .num 25565, .num 1⟩ :=
  ⟨nullOnlyPanel_serves, rfl, rfl, rfl⟩

/-- C5, failing input: both nodes are identified by `attributes.identifier` only and
each holds a free allocation; the preferred id `n2` is the identifier `scanNode`
resolves for the second node, whose scan yields allocation 22, yet
`findFreeAllocation` returns allocation 11 of the first node, because the lookup of
the preferred node compares `attributes.id || id` only. -/
theorem preferred_identifier_node_not_found :
    resolveNodeId (nodeWithIdentifier "n2") = .ok (.str "n2") ∧
    (scanNode identifierPanel (nodeWithIdentifier "n2")).result =
      .ok (some ⟨.num 22, .str "10.0.0.2", .num 25566, .str "n2"⟩) ∧
    nodesFind (.str "n2") (.arr [nodeWithIdentifier "n1", nodeWithIdentifier "n2"]) =
      .ok .undefined ∧
    (findFreeAllocation identifierPanel (.num 1) (.str "n2") .undefined).result =
      .ok ⟨.num 11, .str "10.0.0.1", .num 25565, .str "n1"⟩ :=
  ⟨rfl, rfl, rfl, rfl⟩

/-- C7 (as amended): for an entry that is not `null`, the value `scanNode` computes
for `assigned` is the `assigned` property of the entry's attributes whenever that
property is present (a boolean is used as it is, any other present value such as
`null` counts by its truthiness, whatever `server_id` holds), and the boolean
`!!server_id` when it is absent; the entry is skipped when that value is truthy and
returned as the candidate otherwise, so every returned candidate comes from an entry
classified as unassigned. -/
theorem scanNode_classification (nodeId a : JVal) (rest : List JVal)
    (h : a.isNullish = false) :
    (∃ v, (allocAttr a).bind assignedOf = .ok v ∧
      (∀ b, field "assigned" (attrOf a) = .bool b → v = .bool b) ∧
      (field "assigned" (attrOf a) = .undefined →
        v = .bool (field "server_id" (attrOf a)).truthy) ∧
      (field "assigned" (attrOf a) ≠ .undefined → v = field "assigned" (attrOf a)) ∧
      v.truthy = classifiedAssigned (attrOf a) ∧
      scanAllocs nodeId (a :: rest) =
        if v.truthy then scanAllocs nodeId rest
        else .ok (some (candidateAt nodeId (attrOf a)))) ∧
    (∀ allocs c, scanAllocs nodeId allocs = .ok (some c) →
      ∃ x ∈ allocs, x.isNullish = false ∧ classifiedAssigned (attrOf x) = false ∧
        c = candidateAt nodeId (attrOf x)) := by
  refine ⟨?_, fun allocs c hc => scanAllocs_some_mem nodeId allocs c hc⟩
  obtain ⟨v, hv, hb, hu, hp, ht⟩ := assignedOf_cases (attrOf a) (attrOf_not_nullish a h)
  refine ⟨v, ?_, hb, hu, hp, ht, ?_⟩
  · rw [allocAttr_eq a h]
    exact hv
  · rw [scanAllocs_cons nodeId a rest h, ht]
    unfold isFree
    cases classifiedAssigned (attrOf a) <;> rfl

/-- C7 (as amended) at the entry with `assigned: null`. -/
theorem scanNode_classification_witness :
    nullAssigned.isNullish = false ∧
    ((∃ v, (allocAttr nullAssigned).bind assignedOf = .ok v ∧
      (∀ b, field "assigned" (attrOf nullAssigned) = .bool b → v = .bool b) ∧
      (field "assigned" (attrOf nullAssigned) = .undefined →
        v = .bool (field "server_id" (attrOf nullAssigned)).truthy) ∧
      (field "assigned" (attrOf nullAssigned) ≠ .undefined →
        v = field "assigned" (attrOf nullAssigned)) ∧
      v.truthy = classifiedAssigned (attrOf nullAssigned) ∧
      scanAllocs (.num 1) [nullAssigned] =
        if v.truthy then scanAllocs (.num 1) []
        else .ok (some (candidateAt (.num 1) (attrOf nullAssigned)))) ∧
    (∀ allocs c, scanAllocs (.num 1) allocs = .ok (some c) →
      ∃ x ∈ allocs, x.isNullish = false ∧ classifiedAssigned (attrOf x) = false ∧
        c = candidateAt (.num 1) (attrOf x))) :=
  ⟨rfl, scanNode_classification (.num 1) nullAssigned [] rfl⟩

/-- C7, counterexample: the entry has `assigned: null` and `server_id: 5`, so it
carries no boolean `assigned` and a truthy `server_id` and the boolean rule classifies
it as assigned; `scanNode` computes `assigned = null` and returns the entry as the
candidate. -/
theorem classification_null_assigned_counterexample :
    assignedByBooleanRule (attrOf nullAssigned) = true ∧
    (allocAttr nullAssigned).bind assignedOf = .ok .null ∧
    scanAllocs (.num 1) [nullAssigned] =
      .ok (some ⟨.num 41, .str "10.0.0.4", .num 25565, .num 1⟩) :=
  ⟨rfl, rfl, rfl⟩

/-- C9: the outcome and the panel requests of `findFreeAllocation` are the same for
any two values of `preferAllocationId`, absent (`undefined`) included. -/
theorem preferAllocationId_irrelevant (panel : Panel)
    (locationId preferNodeId a a' : JVal) :
    findFreeAllocation panel locationId preferNodeId a =
      findFreeAllocation panel locationId preferNodeId a' :=
  rfl


/-! ## Claims on `extractIpPortFromServer` -/

theorem ipPortOf_eq (x : JVal) (h : x.isNullish = false) : ipPortOf x = .ok (ipPortAt x) := by
  simp [ipPortOf, ipPortAt, ownOrNested_eq x _ h]

theorem find_truthy_locations (c : JVal) :
    (allocLocations c).find? JVal.truthy =
      if (allocsOf c).truthy then some (allocsOf c) else none := by
  unfold allocLocations allocsOf JVal.or
  by_cases h1 : (field "data" (field "allocations" (field "relationships" c))).truthy = true
  · simp [h1]
  · by_cases h2 : (field "allocation" (field "attributes" c)).truthy = true
    · simp [h1, h2]
    · by_cases h3 : (field "allocations" (field "attributes" c)).truthy = true
      · simp [h1, h2, h3]
      · by_cases h4 : (field "allocations" c).truthy = true
        · simp [h1, h2, h3, h4]
        · simp [h1, h2, h3, h4]

theorem allocationFallback_eq (c : JVal) :
    allocationFallback c =
      if (field "allocation" (field "attributes" c)).truthy
      then some (ipPortAt (field "allocation" (field "attributes" c))) else none := by
  unfold allocationFallback
  by_cases h : (field "allocation" (field "attributes" c)).truthy = true
  · simp [h, ipPortOf_eq _ (not_nullish_of_truthy _ h)]
  · simp [h]

theorem extract_eq_first_truthy (serverResp : JVal) (h : firstElementNull serverResp = false) :
    extractIpPortFromServer serverResp = .ok (extractByFirstTruthy serverResp) := by
  unfold extractIpPortFromServer extractByFirstTruthy
  unfold firstElementNull at h
  rw [find_truthy_locations] at h ⊢
  simp only []
  generalize hal : allocsOf (candidateOf serverResp) = allocs at h ⊢
  have hfb := allocationFallback_eq (candidateOf serverResp)
  cases allocs with
  | arr xs =>
    cases xs with
    | nil => simp only [hfb]; rfl
    | cons first rest =>
      have hfirst : first.isNullish = false := by simpa [truthy] using h
      have hm := allocAttr_eq first hfirst
      unfold allocAttr at hm
      simp only [hm, ipPortOf_eq _ (attrOf_not_nullish first hfirst)]
      rfl
  | undefined => simp only [hfb]; rfl
  | null => simp only [hfb]; rfl
  | bool b => cases b <;> (simp only [hfb]; rfl)
  | num n =>
    by_cases hn : n = 0
    · subst hn; simp only [hfb]; rfl
    · have : (num n).truthy = true := by simp [truthy, hn]
      simp only [hfb, this]; rfl
  | str s =>
    by_cases hs : s = ""
    · subst hs; simp only [hfb]; rfl
    · have : (str s).truthy = true := by simp [truthy, hs]
      simp only [hfb, this]; rfl
  | obj fs => simp only [hfb]; rfl

theorem extractByFirstTruthy_eq_none (serverResp : JVal) :
    extractByFirstTruthy serverResp = none ↔
      (∀ first rest, (allocLocations (candidateOf serverResp)).find? JVal.truthy ≠
        some (.arr (first :: rest))) ∧
      (field "allocation" (field "attributes" (candidateOf serverResp))).truthy = false := by
  unfold extractByFirstTruthy
  split
  · rename_i first rest heq
    simp [heq]
  · rename_i hne
    constructor
    · intro hn
      refine ⟨fun first rest hc => hne first rest hc, ?_⟩
      by_contra hc
      simp at hc
      simp [hc] at hn
    · rintro ⟨_, hf⟩
      simp [hf]

/-- C8 (as amended): unless the first element of the first truthy location is `null`,
`extractIpPortFromServer` returns the extraction by first truthy location: only the
first truthy one of `relationships.allocations.data`, `attributes.allocation`,
`attributes.allocations`, `allocations` is consulted as a list; a non-empty list gives
the `{ip, port}` of its first element, anything else gives the `{ip, port}` of
`attributes.allocation` when that is truthy and `null` otherwise.  The result is
`null` exactly when the first truthy location is not a non-empty list and
`attributes.allocation` is falsy. -/
theorem extract_first_truthy (serverResp : JVal) (h : firstElementNull serverResp = false) :
    extractIpPortFromServer serverResp = .ok (extractByFirstTruthy serverResp) ∧
    (extractIpPortFromServer serverResp = .ok none ↔
      (∀ first rest, (allocLocations (candidateOf serverResp)).find? JVal.truthy ≠
        some (.arr (first :: rest))) ∧
      (field "allocation" (field "attributes" (candidateOf serverResp))).truthy = false) := by
  have he := extract_eq_first_truthy serverResp h
  refine ⟨he, ?_⟩
  rw [he, ← extractByFirstTruthy_eq_none]
  constructor
  · intro hn
    injection hn
  · intro hn
    rw [hn]

/-- C8 (as amended) at a response with an empty `relationships.allocations.data`. -/
theorem extract_first_truthy_witness :
    firstElementNull fallbackResponse = false ∧
    extractIpPortFromServer fallbackResponse = .ok (extractByFirstTruthy fallbackResponse) ∧
    (extractIpPortFromServer fallbackResponse = .ok none ↔
      (∀ first rest, (allocLocations (candidateOf fallbackResponse)).find? JVal.truthy ≠
        some (.arr (first :: rest))) ∧
      (field "allocation" (field "attributes" (candidateOf fallbackResponse))).truthy =
        false) :=
  ⟨rfl, extract_first_truthy fallbackResponse rfl⟩

/-- An empty `relationships.allocations.data` falls back to `attributes.allocation`. -/
theorem fallbackResponse_extracted :
    extractIpPortFromServer fallbackResponse = .ok (some ⟨.str "1.2.3.4", .num 25565⟩) :=
  rfl

/-- C8, counterexample: `relationships.allocations.data` is present but empty and the
top-level `allocations` holds an allocation; the first location that holds allocation
data gives `1.2.3.4:25565`, while `extractIpPortFromServer` returns `null`. -/
theorem extract_shadowed_counterexample :
    extractByFirstHolding shadowedResponse = some ⟨.str "1.2.3.4", .num 25565⟩ ∧
    extractIpPortFromServer shadowedResponse = .ok none :=
  ⟨rfl, rfl⟩

/-- C10, failing input: on the response `{ allocations: [null] }` the unwrapping
`allocs[0].attributes` throws a `TypeError`. -/
theorem extract_throws_on_null_first :
    extractIpPortFromServer nullFirstResponse = .error .typeError :=
  rfl

/-! ## Claims on the button handler -/

theorem replaceFirstChars_prefix (pat rep s : List Char) (h : pat ≠ []) :
    replaceFirstChars pat rep (pat ++ s) = rep ++ s := by
  cases hps : pat ++ s with
  | nil => simp_all
  | cons c cs =>
    rw [replaceFirstChars]
    have : pat.isPrefixOf (c :: cs) = true := by
      rw [← hps, List.isPrefixOf_iff_prefix]
      exact List.prefix_append _ _
    rw [if_pos this, ← hps, List.drop_left]

theorem startsWith_view_login (rid : String) :
    startsWith ("view_login_" ++ rid) "view_login_" = true := by
  unfold startsWith
  rw [String.data_append, List.isPrefixOf_iff_prefix]
  exact List.prefix_append _ _

theorem replaceFirst_view_login (rid : String) :
    replaceFirst ("view_login_" ++ rid) "view_login_" "" = rid := by
  unfold replaceFirst
  rw [String.data_append, replaceFirstChars_prefix _ _ _ (by decide)]
  rfl

theorem onButton_view_login (env : Env) (storage : Storage) (decrypt : Decrypt)
    (rid userId : String) :
    onButton env storage decrypt ("view_login_" ++ rid) userId =
      [.deferReply true, .findById rid] ++
        match storage rid with
        | .error e => onError e
        | .ok none => [.editReply "Server not found." (some true)]
        | .ok (some server) =>
          if accessDenied env userId server then
            [.editReply "You are not allowed to view these credentials." (some true)]
          else
            .decrypt server.encryptedPassword env.CREDENTIALS_ENCRYPTION_KEY ::
            match decrypt server.encryptedPassword env.CREDENTIALS_ENCRYPTION_KEY with
            | .error e => onError e
            | .ok password => [.editReply (loginMessage env server password) (some true)] := by
  unfold onButton
  simp only [startsWith_view_login, replaceFirst_view_login]
  rfl

theorem accessDenied_eq_false (env : Env) (userId : String) (server : ServerRecord) :
    accessDenied env userId server = false ↔
      (userId = server.discordOwnerId ∨ userId ∈ adminIds env) := by
  simp only [accessDenied, isOwner, isAdmin, List.contains]
  by_cases ho : userId = server.discordOwnerId
  · simp [ho]
  · by_cases ha : userId ∈ adminIds env
    · simp [ho, ha]
    · simp [ho, ha]

theorem dropWhile_idem (p : Char → Bool) (l : List Char) :
    (l.dropWhile p).dropWhile p = l.dropWhile p := by
  induction l with
  | nil => rfl
  | cons c cs ih =>
    by_cases hc : p c = true
    · simp [List.dropWhile_cons, hc, ih]
    · simp [List.dropWhile_cons, hc]

theorem dropWhile_head (p : Char → Bool) (l : List Char) (c : Char)
    (h : (l.dropWhile p).head? = some c) : p c = false := by
  induction l with
  | nil => simp at h
  | cons d ds ih =>
    by_cases hd : p d = true
    · simp only [List.dropWhile_cons, hd, if_true] at h
      exact ih h
    · simp only [List.dropWhile_cons, hd] at h
      simp at h
      subst h
      simpa using hd

theorem pressViewLogin_eq (env : Env) (storage : Storage) (decrypt : Decrypt)
    (rid userId : String) :
    pressViewLogin env storage decrypt rid userId =
      [.deferReply true, .findById rid] ++
        match storage rid with
        | .error e => onError e
        | .ok none => [notFoundReply]
        | .ok (some server) =>
          if accessDenied env userId server then [forbiddenReply]
          else
            .decrypt server.encryptedPassword env.CREDENTIALS_ENCRYPTION_KEY ::
            match decrypt server.encryptedPassword env.CREDENTIALS_ENCRYPTION_KEY with
            | .error e => onError e
            | .ok password => [.editReply (loginMessage env server password) (some true)] :=
  onButton_view_login env storage decrypt rid userId

theorem trimChars_idem (p : List Char) : trimChars (trimChars p) = trimChars p := by
  unfold trimChars
  set u := ((p.dropWhile isJsSpace).reverse.dropWhile isJsSpace) with hu
  have h1 : (u.reverse).dropWhile isJsSpace = u.reverse := by
    cases ht : u.reverse with
    | nil => rfl
    | cons c t =>
      have hpre : u.reverse <+: p.dropWhile isJsSpace := by
        have hsuf : u <:+ (p.dropWhile isJsSpace).reverse := List.dropWhile_suffix _
        have := List.reverse_prefix.mpr hsuf
        simpa using this
      rw [ht] at hpre
      obtain ⟨r, hr⟩ := hpre
      have hc : isJsSpace c = false :=
        dropWhile_head isJsSpace p c (by rw [← hr]; rfl)
      simp [List.dropWhile_cons, hc]
  rw [h1, List.reverse_reverse, hu, dropWhile_idem]

theorem mem_adminIds (env : Env) (x : String) :
    x ∈ adminIds env ↔
      ∃ piece ∈ splitComma (adminSource env).data,
        trimChars piece ≠ [] ∧ x = String.mk (trimChars piece) := by
  unfold adminIds
  simp only [List.mem_map, List.mem_filter]
  constructor
  · rintro ⟨t, ⟨⟨piece, hp, rfl⟩, hne⟩, rfl⟩
    exact ⟨piece, hp, by simpa using hne, rfl⟩
  · rintro ⟨piece, hp, hne, rfl⟩
    exact ⟨trimChars piece, ⟨⟨piece, hp, rfl⟩, by simpa using hne⟩, rfl⟩

theorem adminIds_trimmed (env : Env) (x : String) (h : x ∈ adminIds env) :
    x ≠ "" ∧ trimChars x.data = x.data := by
  obtain ⟨piece, _, hne, rfl⟩ := (mem_adminIds env x).mp h
  refine ⟨?_, trimChars_idem piece⟩
  intro hx
  apply hne
  have := congrArg String.data hx
  simpa using this

theorem within_suffix (a x : List Char) : x <:+: a ++ x :=
  ⟨a, [], by simp⟩

theorem within_append (x l r : List Char) (h : x <:+: l) : x <:+: l ++ r := by
  obtain ⟨s, t, e⟩ := h
  exact ⟨s, t ++ r, by simp [← e]⟩

theorem loginMessage_contains (env : Env) (server : ServerRecord) (password : String) :
    (envText env.PTERO_URL).data <:+: (loginMessage env server password).data ∧
    server.pteroEmail.data <:+: (loginMessage env server password).data ∧
    password.data <:+: (loginMessage env server password).data ∧
    server.serverName.data <:+: (loginMessage env server password).data := by
  unfold loginMessage
  simp only [String.data_append]
  refine ⟨?_, ?_, ?_, ?_⟩ <;>
    repeat (first | exact within_suffix _ _ | apply within_append)

theorem adminSource_of_some (env : Env) (s : String) (h : env.ADMIN_IDS = some s) :
    adminSource env = s := by
  unfold adminSource
  rw [h]
  by_cases hs : s = ""
  · simp [hs]
  · simp [hs]

theorem mem_adminIds_config (env : Env) (x : String) :
    x ∈ adminIds env ↔
      ∃ s, env.ADMIN_IDS = some s ∧ ∃ piece ∈ splitComma s.data,
        trimChars piece ≠ [] ∧ x = String.mk (trimChars piece) := by
  rw [mem_adminIds]
  cases h : env.ADMIN_IDS with
  | none =>
    have hsrc : adminSource env = "" := by
      unfold adminSource
      rw [h]
    rw [hsrc]
    constructor
    · rintro ⟨piece, hp, hne, _⟩
      have : piece = [] := by simpa [splitComma] using hp
      subst this
      exact absurd rfl hne
    · rintro ⟨s, hs, _⟩
      cases hs
  | some s =>
    rw [adminSource_of_some env s h]
    constructor
    · rintro ⟨piece, hp, hne, hx⟩
      exact ⟨s, rfl, piece, hp, hne, hx⟩
    · rintro ⟨t, ht, piece, hp, hne, hx⟩
      cases ht
      exact ⟨piece, hp, hne, hx⟩

/-- C2: for a stored record, the handler answers with the denial exactly when the
requester is neither string-equal to `discordOwnerId` nor equal to a non-empty trimmed
comma-separated piece of the configured `ADMIN_IDS` string, and it goes on to decrypt
exactly when the requester is one of the two; the admin list holds exactly those
pieces, so none of its members is empty or carries surrounding white space, and
membership is plain string equality. -/
theorem access_gate_iff (env : Env) (storage : Storage) (decrypt : Decrypt)
    (recordId userId : String) (server : ServerRecord)
    (h : storage recordId = .ok (some server)) :
    (pressViewLogin env storage decrypt recordId userId =
        [.deferReply true, .findById recordId, forbiddenReply] ↔
      ¬ (userId = server.discordOwnerId ∨
        ∃ s, env.ADMIN_IDS = some s ∧ ∃ piece ∈ splitComma s.data,
          trimChars piece ≠ [] ∧ userId = String.mk (trimChars piece))) ∧
    (Effect.decrypt server.encryptedPassword env.CREDENTIALS_ENCRYPTION_KEY ∈
        pressViewLogin env storage decrypt recordId userId ↔
      (userId = server.discordOwnerId ∨
        ∃ s, env.ADMIN_IDS = some s ∧ ∃ piece ∈ splitComma s.data,
          trimChars piece ≠ [] ∧ userId = String.mk (trimChars piece))) ∧
    (accessDenied env userId server = false ↔
      (userId = server.discordOwnerId ∨
        ∃ s, env.ADMIN_IDS = some s ∧ ∃ piece ∈ splitComma s.data,
          trimChars piece ≠ [] ∧ userId = String.mk (trimChars piece))) ∧
    (∀ x, x ∈ adminIds env ↔
      ∃ s, env.ADMIN_IDS = some s ∧ ∃ piece ∈ splitComma s.data,
        trimChars piece ≠ [] ∧ x = String.mk (trimChars piece)) ∧
    (∀ x ∈ adminIds env, x ≠ "" ∧ trimChars x.data = x.data) := by
  have hgate : accessDenied env userId server = false ↔
      (userId = server.discordOwnerId ∨
        ∃ s, env.ADMIN_IDS = some s ∧ ∃ piece ∈ splitComma s.data,
          trimChars piece ≠ [] ∧ userId = String.mk (trimChars piece)) := by
    rw [accessDenied_eq_false, mem_adminIds_config]
  refine ⟨?_, ?_, hgate, mem_adminIds_config env, adminIds_trimmed env⟩
  · rw [← hgate, pressViewLogin_eq, h]
    cases hd : accessDenied env userId server <;> simp [forbiddenReply, hd]
  · rw [← hgate, pressViewLogin_eq, h]
    cases hd : accessDenied env userId server <;> simp [forbiddenReply, hd]

/-- C3: on the button `view_login_<recordId>` the handler looks up exactly
`recordId`; it replies `Server not found.` when storage has no record, whoever asks;
the denial when the record exists and the gate denies the requester; and otherwise,
when `decrypt` returns a password, the login message, which contains the panel URL,
the record's `pteroEmail`, the decrypted password and the record's `serverName`, the
panel URL being the configured value of `PTERO_URL`.  A lookup or a decryption that
throws ends in the reply of the `catch` block. -/
theorem disclosure_outcomes (env : Env) (storage : Storage) (decrypt : Decrypt)
    (recordId userId : String) :
    (Effect.findById recordId ∈ pressViewLogin env storage decrypt recordId userId ∧
      ∀ id, Effect.findById id ∈ pressViewLogin env storage decrypt recordId userId →
        id = recordId) ∧
    (storage recordId = .ok none →
      pressViewLogin env storage decrypt recordId userId =
        [.deferReply true, .findById recordId, notFoundReply]) ∧
    (∀ server, storage recordId = .ok (some server) →
      accessDenied env userId server = true →
      pressViewLogin env storage decrypt recordId userId =
        [.deferReply true, .findById recordId, forbiddenReply]) ∧
    (∀ server password, storage recordId = .ok (some server) →
      accessDenied env userId server = false →
      decrypt server.encryptedPassword env.CREDENTIALS_ENCRYPTION_KEY = .ok password →
      pressViewLogin env storage decrypt recordId userId =
        [.deferReply true, .findById recordId,
          .decrypt server.encryptedPassword env.CREDENTIALS_ENCRYPTION_KEY,
          .editReply (loginMessage env server password) (some true)] ∧
      (∀ url, env.PTERO_URL = some url →
        url.data <:+: (loginMessage env server password).data) ∧
      server.pteroEmail.data <:+: (loginMessage env server password).data ∧
      password.data <:+: (loginMessage env server password).data ∧
      server.serverName.data <:+: (loginMessage env server password).data) ∧
    (∀ e, storage recordId = .error e →
      pressViewLogin env storage decrypt recordId userId =
        [.deferReply true, .findById recordId, .logError e,
          .editReply "An error occurred." none]) ∧
    (∀ server e, storage recordId = .ok (some server) →
      accessDenied env userId server = false →
      decrypt server.encryptedPassword env.CREDENTIALS_ENCRYPTION_KEY = .error e →
      pressViewLogin env storage decrypt recordId userId =
        [.deferReply true, .findById recordId,
          .decrypt server.encryptedPassword env.CREDENTIALS_ENCRYPTION_KEY,
          .logError e, .editReply "An error occurred." none]) := by
  refine ⟨⟨?_, ?_⟩, ?_, ?_, ?_, ?_, ?_⟩
  · rw [pressViewLogin_eq]
    simp
  · intro id
    rw [pressViewLogin_eq]
    rcases hs : storage recordId with e | _ | server
    · simp [onError]
    · simp [notFoundReply]
    · by_cases hd : accessDenied env userId server = true
      · simp [hd, forbiddenReply]
      · cases hp : decrypt server.encryptedPassword env.CREDENTIALS_ENCRYPTION_KEY <;>
          simp [hd, hp, onError]
  · intro hs
    rw [pressViewLogin_eq, hs]
    rfl
  · intro server hs hd
    rw [pressViewLogin_eq, hs]
    simp [hd]
  · intro server password hs hd hp
    have hc := loginMessage_contains env server password
    refine ⟨?_, ?_, hc.2⟩
    · rw [pressViewLogin_eq, hs]
      simp [hd, hp]
    · intro url hurl
      have h1 := hc.1
      rw [hurl] at h1
      exact h1
  · intro e hs
    rw [pressViewLogin_eq, hs]
    rfl
  · intro server e hs hd hp
    rw [pressViewLogin_eq, hs]
    simp [hd, hp, onError]

/-- C4: a requester who is neither the owner of the stored record nor in the admin
list gets the denial, `decrypt` is not invoked, and the whole run is the same for any
other stored ciphertext, any other encryption key and any other `decrypt`. -/
theorem forbidden_independent_of_secret (env env' : Env) (storage storage' : Storage)
    (decrypt decrypt' : Decrypt) (recordId userId : String) (server server' : ServerRecord)
    (h : storage recordId = .ok (some server))
    (h' : storage' recordId = .ok (some server'))
    (hrec : server'.discordOwnerId = server.discordOwnerId ∧
      server'.pteroEmail = server.pteroEmail ∧ server'.serverName = server.serverName)
    (henv : env'.ADMIN_IDS = env.ADMIN_IDS ∧ env'.PTERO_URL = env.PTERO_URL)
    (howner : userId ≠ server.discordOwnerId) (hadmin : userId ∉ adminIds env) :
    pressViewLogin env storage decrypt recordId userId =
      [.deferReply true, .findById recordId, forbiddenReply] ∧
    pressViewLogin env' storage' decrypt' recordId userId =
      pressViewLogin env storage decrypt recordId userId ∧
    ∀ blob key, Effect.decrypt blob key ∉ pressViewLogin env storage decrypt recordId userId := by
  have hd : accessDenied env userId server = true := by
    cases hc : accessDenied env userId server
    · rcases (accessDenied_eq_false env userId server).mp hc with ho | ha
      · exact absurd ho howner
      · exact absurd ha hadmin
    · rfl
  have hids : adminIds env' = adminIds env := by
    unfold adminIds adminSource
    rw [henv.1]
  have hd' : accessDenied env' userId server' = true := by
    unfold accessDenied isOwner isAdmin at hd ⊢
    rw [hids, hrec.1]
    exact hd
  have e1 : pressViewLogin env storage decrypt recordId userId =
      [.deferReply true, .findById recordId, forbiddenReply] := by
    rw [pressViewLogin_eq, h]
    simp [hd]
  have e2 : pressViewLogin env' storage' decrypt' recordId userId =
      [.deferReply true, .findById recordId, forbiddenReply] := by
    rw [pressViewLogin_eq, h']
    simp [hd']
  refine ⟨e1, e2.trans e1.symm, ?_⟩
  intro blob key
  rw [e1]
  simp [forbiddenReply]

/-- The admin list parsed from `" 123 , ,Abc,,"`. -/
theorem adminIds_sampleEnv : adminIds sampleEnv = ["123", "Abc"] := by decide

/-- Requesters that differ from the owner or from an admin by letter case or by
surrounding blanks, and the empty requester, are denied; the owner and the admins are
shown the login message. -/
theorem near_miss_requesters_denied :
    (∀ u ∈ ["abc", "ABC", " 123 ", "123 ", " Abc", "User123", "user123 ", " user123", ""],
      pressViewLogin sampleEnv sampleStorage sampleDecrypt "r1" u =
        [.deferReply true, .findById "r1", forbiddenReply]) ∧
    (∀ u ∈ ["123", "Abc", "user123"],
      pressViewLogin sampleEnv sampleStorage sampleDecrypt "r1" u =
        [.deferReply true, .findById "r1", .decrypt "blob1" (some "k1"),
          .editReply (loginMessage sampleEnv sampleRecord "hunter2") (some true)]) := by
  decide

/-- C2 at the sample record: the requester `123` is granted through the piece ` 123 `
of `ADMIN_IDS`, and the requester ` 123 `, which differs from that admin only by
surrounding blanks, is denied. -/
theorem access_gate_iff_witness :
    sampleStorage "r1" = .ok (some sampleRecord) ∧
    sampleEnv.ADMIN_IDS = some " 123 , ,Abc,," ∧
    "123" ∈ adminIds sampleEnv ∧
    accessDenied sampleEnv "123" sampleRecord = false ∧
    Effect.decrypt "blob1" (some "k1") ∈
      pressViewLogin sampleEnv sampleStorage sampleDecrypt "r1" "123" ∧
    pressViewLogin sampleEnv sampleStorage sampleDecrypt "r1" "123" ≠
      [.deferReply true, .findById "r1", forbiddenReply] ∧
    pressViewLogin sampleEnv sampleStorage sampleDecrypt "r1" " 123 " =
      [.deferReply true, .findById "r1", forbiddenReply] := by
  have granted := access_gate_iff sampleEnv sampleStorage sampleDecrypt "r1" "123"
    sampleRecord rfl
  have denied := access_gate_iff sampleEnv sampleStorage sampleDecrypt "r1" " 123 "
    sampleRecord rfl
  have hadmin : ∃ s, sampleEnv.ADMIN_IDS = some s ∧ ∃ piece ∈ splitComma s.data,
      trimChars piece ≠ [] ∧ "123" = String.mk (trimChars piece) :=
    ⟨" 123 , ,Abc,,", rfl, " 123 ".data, by decide, by decide, by decide⟩
  refine ⟨rfl, rfl, (granted.2.2.2.1 "123").mpr hadmin, granted.2.2.1.mpr (Or.inr hadmin),
    granted.2.1.mpr (Or.inr hadmin), fun heq => granted.1.mp heq (Or.inr hadmin),
    denied.1.mpr ?_⟩
  rintro (howner | hpiece)
  · exact absurd howner (by decide)
  · have hmem := (denied.2.2.2.1 " 123 ").mpr hpiece
    exact absurd (denied.2.2.2.2 " 123 " hmem).2 (by decide)

/-- C3 at the sample storage: an unknown id, an intruder, and the owner. -/
theorem disclosure_outcomes_witness :
    pressViewLogin sampleEnv sampleStorage sampleDecrypt "r2" "user123" =
      [.deferReply true, .findById "r2", notFoundReply] ∧
    pressViewLogin sampleEnv sampleStorage sampleDecrypt "r1" "intruder" =
      [.deferReply true, .findById "r1", forbiddenReply] ∧
    pressViewLogin sampleEnv sampleStorage sampleDecrypt "r1" "user123" =
      [.deferReply true, .findById "r1", .decrypt "blob1" (some "k1"),
        .editReply (loginMessage sampleEnv sampleRecord "hunter2") (some true)] ∧
    "https://panel.example".data <:+:
      (loginMessage sampleEnv sampleRecord "hunter2").data ∧
    "hunter2".data <:+: (loginMessage sampleEnv sampleRecord "hunter2").data :=
  ⟨(disclosure_outcomes sampleEnv sampleStorage sampleDecrypt "r2" "user123").2.1 rfl,
   (disclosure_outcomes sampleEnv sampleStorage sampleDecrypt "r1" "intruder").2.2.1
     sampleRecord rfl (by decide),
   ((disclosure_outcomes sampleEnv sampleStorage sampleDecrypt "r1" "user123").2.2.2.1
     sampleRecord "hunter2" rfl (by decide) rfl).1,
   ((disclosure_outcomes sampleEnv sampleStorage sampleDecrypt "r1" "user123").2.2.2.1
     sampleRecord "hunter2" rfl (by decide) rfl).2.1 "https://panel.example" rfl,
   ((disclosure_outcomes sampleEnv sampleStorage sampleDecrypt "r1" "user123").2.2.2.1
     sampleRecord "hunter2" rfl (by decide) rfl).2.2.2.1⟩

/-- C4 at the sample record with another ciphertext, key and `decrypt`. -/
theorem forbidden_independent_of_secret_witness :
    pressViewLogin sampleEnv sampleStorage sampleDecrypt "r1" "intruder" =
      [.deferReply true, .findById "r1", forbiddenReply] ∧
    pressViewLogin { sampleEnv with CREDENTIALS_ENCRYPTION_KEY := some "k2" }
        (fun _ => .ok (some { sampleRecord with encryptedPassword := "blob2" }))
        (fun _ _ => .ok "swordfish") "r1" "intruder" =
      pressViewLogin sampleEnv sampleStorage sampleDecrypt "r1" "intruder" ∧
    ∀ blob key, Effect.decrypt blob key ∉
      pressViewLogin sampleEnv sampleStorage sampleDecrypt "r1" "intruder" :=
  forbidden_independent_of_secret sampleEnv
    { sampleEnv with CREDENTIALS_ENCRYPTION_KEY := some "k2" } sampleStorage
    (fun _ => .ok (some { sampleRecord with encryptedPassword := "blob2" }))
    sampleDecrypt (fun _ _ => .ok "swordfish") "r1" "intruder" sampleRecord
    { sampleRecord with encryptedPassword := "blob2" } rfl rfl ⟨rfl, rfl, rfl⟩ ⟨rfl, rfl⟩
    (by decide) (by decide)

end KaesyrLabs
